import Mathlib

/-!
Verification of the dyrectorio mapping, controller and UI-element logic.

The development shallowly embeds three source files:
  - web/crux-ui/src/server/crux/mappers/node-mappers.ts   (enum mappers)
  - web/crux/src/app/deploy/deploy.http.controller.ts     (HTTP controller)
  - web/crux-ui/src/elements/dyo-checkbox.tsx             (checkbox element)

Protocol enumerations are integer-coded values coming from generated
protobuf code that is not part of the sampled sources; they are modelled
from the spec as Int constants.  TypeScript string-literal union types
(ContainerOperation, NodeType, ...) are erased at runtime, so mapper
inputs of those types are embedded as plain strings.
-/

namespace NodeMappers

/-! Modelled from the spec: the integer-coded protocol enumeration for
container states (generated protobuf code, absent from the sources).
Canonical member names follow the mapper source and the spec; the
UNRECOGNIZED sentinel is the out-of-range marker. -/
namespace ProtoContainerState

def UNKNOWN_CONTAINER_STATE : Int := 0

def CREATED : Int := 1

def RESTARTING : Int := 2

def RUNNING : Int := 3

def REMOVING : Int := 4

def EXITED : Int := 5

def DEAD : Int := 6

def UNRECOGNIZED : Int := -1

end ProtoContainerState

/-! Modelled from the spec: the integer-coded protocol enumeration for
container operations (generated protobuf code, absent from the sources). -/
namespace ProtoContainerOperation

def UNKNOWN_CONTAINER_OPERATION : Int := 0

def START_CONTAINER : Int := 1

def STOP_CONTAINER : Int := 2

def RESTART_CONTAINER : Int := 3

def UNRECOGNIZED : Int := -1

end ProtoContainerOperation

/-! Modelled from the spec: the integer-coded protocol enumeration for the
node connection status (generated protobuf code, absent from the sources). -/
namespace NodeConnectionStatus

def CONNECTION_STATUS_UNSPECIFIED : Int := 0

def UNREACHABLE : Int := 1

def CONNECTED : Int := 2

def UNRECOGNIZED : Int := -1

end NodeConnectionStatus

/-! Modelled from the spec: the integer-coded protocol enumeration for node
types (generated protobuf code, absent from the sources): a binary choice
plus the out-of-range sentinel. -/
namespace GrpcNodeType

def DOCKER : Int := 0

def K8S : Int := 1

def UNRECOGNIZED : Int := -1

end GrpcNodeType

/-- Modelled from the spec: the fixed ordered two-element list of node type
names from the application model layer (absent from the sources): the
docker-like backend first, the kubernetes-like backend second. -/
def NODE_TYPE_VALUES : List String := ["docker", "k8s"]

/-- Modelled from the spec: the generated total lookup of the canonical
name of a container-state protocol value (absent from the sources).  Known
values map to their canonical names; every other value falls through to
the UNRECOGNIZED sentinel name, so the lookup never faults. -/
def containerStateToJSON (value : Int) : String :=
  if value = ProtoContainerState.UNKNOWN_CONTAINER_STATE then "UNKNOWN_CONTAINER_STATE"
  else if value = ProtoContainerState.CREATED then "CREATED"
  else if value = ProtoContainerState.RESTARTING then "RESTARTING"
  else if value = ProtoContainerState.RUNNING then "RUNNING"
  else if value = ProtoContainerState.REMOVING then "REMOVING"
  else if value = ProtoContainerState.EXITED then "EXITED"
  else if value = ProtoContainerState.DEAD then "DEAD"
  else "UNRECOGNIZED"

/-- Lowercasing of a string, character by character, modelling the
JavaScript toLowerCase call on the ASCII canonical names involved here. -/
def toLowerCase (s : String) : String :=
  String.mk (s.data.map Char.toLower)

/-- Embedding of containerStateToDto: the canonical protocol name of the
state, lowercased. -/
def containerStateToDto (state : Int) : String :=
  toLowerCase (containerStateToJSON state)

/-- Embedding of nodeTypeUiToGrpc: equality test against the first entry of
NODE_TYPE_VALUES selects DOCKER, everything else selects K8S. -/
def nodeTypeUiToGrpc (type : String) : Int :=
  if type = NODE_TYPE_VALUES.getD 0 "" then GrpcNodeType.DOCKER else GrpcNodeType.K8S

/-- Embedding of nodeTypeGrpcToUi: equality test against the DOCKER sentinel
selects the first entry of NODE_TYPE_VALUES, everything else the second. -/
def nodeTypeGrpcToUi (type : Int) : String :=
  if type = GrpcNodeType.DOCKER then NODE_TYPE_VALUES.getD 0 "" else NODE_TYPE_VALUES.getD 1 ""

/-- Embedding of nodeStatusToDto: switch on the connection status, with
CONNECTED mapped to running, UNREACHABLE mapped to unreachable and the
default case mapped to unreachable as well. -/
def nodeStatusToDto (status : Int) : String :=
  if status = NodeConnectionStatus.CONNECTED then "running"
  else if status = NodeConnectionStatus.UNREACHABLE then "unreachable"
  else "unreachable"

/-- Embedding of containerOperationToProto: switch on the operation string,
with a default case returning the UNRECOGNIZED sentinel. -/
def containerOperationToProto (it : String) : Int :=
  match it with
  | "start" => ProtoContainerOperation.START_CONTAINER
  | "stop" => ProtoContainerOperation.STOP_CONTAINER
  | "restart" => ProtoContainerOperation.RESTART_CONTAINER
  | _ => ProtoContainerOperation.UNRECOGNIZED

/-!
Stateful embeddings of the mapper bodies.  Each mapper body in the source
reads only its own parameter and writes nothing, so its translation in an
ambient-state-passing style threads the world value through untouched.
The world type is abstract: the bodies mention no ambient state at all.
-/

/-- Embedding of the containerStateToDto body as a function of an ambient
world, translated statement by statement from the source; the body reads
only the parameter. -/
def containerStateToDtoRun {W : Type} (w : W) (state : Int) : String × W :=
  (toLowerCase (containerStateToJSON state), w)

/-- Embedding of the nodeTypeUiToGrpc body as a function of an ambient
world; the body reads only the parameter and the constant type list. -/
def nodeTypeUiToGrpcRun {W : Type} (w : W) (type : String) : Int × W :=
  (if type = NODE_TYPE_VALUES.getD 0 "" then GrpcNodeType.DOCKER else GrpcNodeType.K8S, w)

/-- Embedding of the nodeTypeGrpcToUi body as a function of an ambient
world; the body reads only the parameter and the constant type list. -/
def nodeTypeGrpcToUiRun {W : Type} (w : W) (type : Int) : String × W :=
  (if type = GrpcNodeType.DOCKER then NODE_TYPE_VALUES.getD 0 "" else NODE_TYPE_VALUES.getD 1 "", w)

/-- Embedding of the nodeStatusToDto body as a function of an ambient
world; the switch reads only the parameter. -/
def nodeStatusToDtoRun {W : Type} (w : W) (status : Int) : String × W :=
  (if status = NodeConnectionStatus.CONNECTED then "running"
   else if status = NodeConnectionStatus.UNREACHABLE then "unreachable"
   else "unreachable", w)

/-- Embedding of the containerOperationToProto body as a function of an
ambient world; the switch reads only the parameter. -/
def containerOperationToProtoRun {W : Type} (w : W) (it : String) : Int × W :=
  (match it with
   | "start" => ProtoContainerOperation.START_CONTAINER
   | "stop" => ProtoContainerOperation.STOP_CONTAINER
   | "restart" => ProtoContainerOperation.RESTART_CONTAINER
   | _ => ProtoContainerOperation.UNRECOGNIZED, w)

end NodeMappers

namespace DeployHttpController

/-- Route fragment for the deployments resource, from the controller. -/
def ROUTE_DEPLOYMENTS : String := "deployments"

/-- Authenticated identity attached to the request; only its opaque id is
relevant to the embedded logic. -/
structure Identity where
  id : String
deriving DecidableEq

/-- Deployment response body returned by the service layer; the controller
passes it through whole, so only the id field (used for the location URL)
is distinguished here. -/
structure DeploymentDto where
  id : String
  note : String
deriving DecidableEq

/-- Request body for creating a deployment; the controller forwards it to
the service without inspecting it, so its fields are opaque here. -/
structure CreateDeploymentDto where
  versionId : String
  nodeId : String
deriving DecidableEq

/-- Response shape produced by controllers annotated CreatedWithLocation: a
location URL plus the response body. -/
structure CreatedResponse (A : Type) where
  url : String
  body : A
deriving DecidableEq

/-- Embedding of the private static locationOf helper: the deployments
route with the deployment id appended. -/
def locationOf (deploymentId : String) : String :=
  "/" ++ ROUTE_DEPLOYMENTS ++ "/" ++ deploymentId

/-- Embedding of createDeployment.  The injected service is abstracted as a
function from the request body and identity to the deployment it returns;
the controller wraps the service result with its location URL. -/
def createDeployment (service : CreateDeploymentDto → Identity → DeploymentDto)
    (request : CreateDeploymentDto) (identity : Identity) :
    CreatedResponse DeploymentDto :=
  let deployment := service request identity
  { url := locationOf deployment.id, body := deployment }

/-- Embedding of copyDeployment.  The force query parameter is bound (as in
the source signature) but the body never uses it; the service is called
with the deployment id and the identity only. -/
def copyDeployment (service : String → Identity → DeploymentDto)
    (force : Bool) (deploymentId : String) (identity : Identity) :
    CreatedResponse DeploymentDto :=
  let deployment := service deploymentId identity
  { url := locationOf deployment.id, body := deployment }

end DeployHttpController

namespace DyoCheckbox

/-- Browser event delivered to the click or change handler; its payload is
opaque to the embedded logic. -/
structure UIEvent where
  id : Nat
deriving DecidableEq

/-- Observable calls the checkbox handler makes to its optional callbacks,
in order: a setFieldValue call carries the field name, the new value and
the validate flag; an onCheckedChange call carries the new value and the
triggering event. -/
inductive CheckboxEffect where
  | setField (name : Option String) (value : Bool) (validate : Bool)
  | checkedChange (value : Bool) (event : UIEvent)
deriving DecidableEq

/-- Props of the DyoCheckbox element.  The name and checked props are
optional; the two callback props are modelled by their presence, since the
handler only forwards arguments to them. -/
structure DyoCheckboxProps where
  name : Option String
  checked : Option Bool
  setFieldValue : Bool
  onCheckedChange : Bool
deriving DecidableEq

/-- Embedding of handleCheckedChange: optional-chaining calls to
setFieldValue (with the field name, the new value and validate set to
false) and then onCheckedChange (with the new value and the event), each
skipped when the callback is absent.  The result is the ordered list of
calls made. -/
def handleCheckedChange (props : DyoCheckboxProps) (isChecked : Bool)
    (event : UIEvent) : List CheckboxEffect :=
  (if props.setFieldValue then [CheckboxEffect.setField props.name isChecked false] else [])
    ++ (if props.onCheckedChange then [CheckboxEffect.checkedChange isChecked event] else [])

/-- JavaScript negation of a possibly-undefined boolean prop: negation of
the value when present, true when undefined. -/
def jsNot (checked : Option Bool) : Bool :=
  !(checked.getD false)

/-- Embedding of the onClick handler of the outer div: it calls
handleCheckedChange with the JavaScript negation of the checked prop. -/
def onClickCheckbox (props : DyoCheckboxProps) (event : UIEvent) : List CheckboxEffect :=
  handleCheckedChange props (jsNot props.checked) event

/-- Embedding of the onChange handler of the hidden input: it also calls
handleCheckedChange with the JavaScript negation of the checked prop. -/
def onChangeCheckbox (props : DyoCheckboxProps) (event : UIEvent) : List CheckboxEffect :=
  handleCheckedChange props (jsNot props.checked) event

end DyoCheckbox

section MapperTheorems

open NodeMappers

/-- C1: every exported mapping function in node-mappers.ts is total over
its entire input domain: for every input value, including out-of-range or
unknown protocol enumeration values, each function returns a defined
output drawn from its finite range, and there is no error path. -/
theorem mappers_total :
    (∀ state : Int, containerStateToDto state ∈
      ["unknown_container_state", "created", "restarting", "running", "removing",
       "exited", "dead", "unrecognized"]) ∧
    (∀ type : String, nodeTypeUiToGrpc type = GrpcNodeType.DOCKER ∨
      nodeTypeUiToGrpc type = GrpcNodeType.K8S) ∧
    (∀ type : Int, nodeTypeGrpcToUi type = "docker" ∨ nodeTypeGrpcToUi type = "k8s") ∧
    (∀ status : Int, nodeStatusToDto status = "running" ∨
      nodeStatusToDto status = "unreachable") ∧
    (∀ it : String, containerOperationToProto it = ProtoContainerOperation.START_CONTAINER ∨
      containerOperationToProto it = ProtoContainerOperation.STOP_CONTAINER ∨
      containerOperationToProto it = ProtoContainerOperation.RESTART_CONTAINER ∨
      containerOperationToProto it = ProtoContainerOperation.UNRECOGNIZED) := by
  refine ⟨?_, ?_, ?_, ?_, ?_⟩
  · intro state
    unfold containerStateToDto containerStateToJSON
    split_ifs <;> decide
  · intro type
    unfold nodeTypeUiToGrpc
    split_ifs <;> simp
  · intro type
    unfold nodeTypeGrpcToUi
    split_ifs <;> simp [NODE_TYPE_VALUES]
  · intro status
    unfold nodeStatusToDto
    split_ifs <;> simp
  · intro it
    unfold containerOperationToProto
    split <;> simp

/-- C2: containerOperationToProto maps the strings start, stop and restart
to the corresponding protocol operations and every other string to the
UNRECOGNIZED sentinel, with no error path. -/
theorem containerOperationToProto_spec :
    containerOperationToProto "start" = ProtoContainerOperation.START_CONTAINER ∧
    containerOperationToProto "stop" = ProtoContainerOperation.STOP_CONTAINER ∧
    containerOperationToProto "restart" = ProtoContainerOperation.RESTART_CONTAINER ∧
    ∀ it : String, it ≠ "start" → it ≠ "stop" → it ≠ "restart" →
      containerOperationToProto it = ProtoContainerOperation.UNRECOGNIZED := by
  refine ⟨rfl, rfl, rfl, ?_⟩
  intro it h1 h2 h3
  unfold containerOperationToProto
  split <;> simp_all

/-- Witness for C2 at the spec example: the operation string pause is not
one of the three known operations, so it maps to the UNRECOGNIZED
sentinel. -/
theorem containerOperationToProto_spec_witness :
    containerOperationToProto "pause" = ProtoContainerOperation.UNRECOGNIZED :=
  containerOperationToProto_spec.2.2.2 "pause" (by decide) (by decide) (by decide)

/-- C3: nodeStatusToDto returns running exactly on the CONNECTED status and
unreachable on every other input, so its range is exactly the two strings
running and unreachable. -/
theorem nodeStatusToDto_spec :
    (∀ status : Int, nodeStatusToDto status = "running" ↔
      status = NodeConnectionStatus.CONNECTED) ∧
    (∀ status : Int, status ≠ NodeConnectionStatus.CONNECTED →
      nodeStatusToDto status = "unreachable") ∧
    (∀ status : Int, nodeStatusToDto status = "running" ∨
      nodeStatusToDto status = "unreachable") := by
  refine ⟨?_, ?_, ?_⟩
  · intro status
    constructor
    · intro h
      by_contra hne
      unfold nodeStatusToDto at h
      rw [if_neg hne] at h
      split_ifs at h <;> exact absurd h (by decide)
    · intro h
      rw [h]
      rfl
  · intro status hne
    unfold nodeStatusToDto
    rw [if_neg hne]
    split_ifs <;> rfl
  · intro status
    unfold nodeStatusToDto
    split_ifs <;> simp

/-- Witness for C3 at a value outside the protocol enumeration: the status
99 is not CONNECTED, so it maps to unreachable. -/
theorem nodeStatusToDto_spec_witness : nodeStatusToDto 99 = "unreachable" :=
  nodeStatusToDto_spec.2.1 99 (by decide)

/-- C4: both node-type mappers are binary classifiers against a single
sentinel: nodeTypeGrpcToUi returns the first entry of NODE_TYPE_VALUES
exactly on DOCKER and the second entry on every other input, and
nodeTypeUiToGrpc returns DOCKER exactly on the first entry and K8S on
every other input. -/
theorem nodeType_binary_classifier :
    nodeTypeGrpcToUi GrpcNodeType.DOCKER = NODE_TYPE_VALUES.getD 0 "" ∧
    (∀ type : Int, type ≠ GrpcNodeType.DOCKER →
      nodeTypeGrpcToUi type = NODE_TYPE_VALUES.getD 1 "") ∧
    nodeTypeUiToGrpc (NODE_TYPE_VALUES.getD 0 "") = GrpcNodeType.DOCKER ∧
    (∀ type : String, type ≠ NODE_TYPE_VALUES.getD 0 "" →
      nodeTypeUiToGrpc type = GrpcNodeType.K8S) := by
  refine ⟨rfl, ?_, rfl, ?_⟩
  · intro type hne
    unfold nodeTypeGrpcToUi
    rw [if_neg hne]
  · intro type hne
    unfold nodeTypeUiToGrpc
    rw [if_neg hne]

/-- Witness for C4 at the non-sentinel inputs: K8S maps to the second entry
of NODE_TYPE_VALUES, and the second entry maps back to K8S. -/
theorem nodeType_binary_classifier_witness :
    nodeTypeGrpcToUi GrpcNodeType.K8S = NODE_TYPE_VALUES.getD 1 "" ∧
    nodeTypeUiToGrpc "k8s" = GrpcNodeType.K8S :=
  ⟨nodeType_binary_classifier.2.1 GrpcNodeType.K8S (by decide),
   nodeType_binary_classifier.2.2.2 "k8s" (by decide)⟩

/-- C5: the two node-type mappers are mutually inverse on the two defined
categories: the round trip through the protocol enumeration restores both
entries of NODE_TYPE_VALUES, and the round trip through the type list
restores both DOCKER and K8S. -/
theorem nodeType_round_trip :
    nodeTypeGrpcToUi (nodeTypeUiToGrpc (NODE_TYPE_VALUES.getD 0 "")) =
      NODE_TYPE_VALUES.getD 0 "" ∧
    nodeTypeGrpcToUi (nodeTypeUiToGrpc (NODE_TYPE_VALUES.getD 1 "")) =
      NODE_TYPE_VALUES.getD 1 "" ∧
    nodeTypeUiToGrpc (nodeTypeGrpcToUi GrpcNodeType.DOCKER) = GrpcNodeType.DOCKER ∧
    nodeTypeUiToGrpc (nodeTypeGrpcToUi GrpcNodeType.K8S) = GrpcNodeType.K8S := by
  decide

/-- C6: on every valid container-state protocol value containerStateToDto
equals the lowercased canonical name of that value, here spelled out for
the whole enumeration. -/
theorem containerStateToDto_lowercase :
    (∀ state : Int, containerStateToDto state = toLowerCase (containerStateToJSON state)) ∧
    containerStateToDto ProtoContainerState.UNKNOWN_CONTAINER_STATE =
      "unknown_container_state" ∧
    containerStateToDto ProtoContainerState.CREATED = "created" ∧
    containerStateToDto ProtoContainerState.RESTARTING = "restarting" ∧
    containerStateToDto ProtoContainerState.RUNNING = "running" ∧
    containerStateToDto ProtoContainerState.REMOVING = "removing" ∧
    containerStateToDto ProtoContainerState.EXITED = "exited" ∧
    containerStateToDto ProtoContainerState.DEAD = "dead" :=
  ⟨fun _ => rfl, by decide⟩

/-- C7: every mapping function is pure and deterministic: in the
state-passing embedding of each mapper body, the output does not depend on
the ambient world, the world comes back unchanged (no writes, no I/O), and
the output agrees with the pure function of the input alone. -/
theorem mappers_pure :
    ∀ (W : Type) (w w2 : W),
      (∀ state : Int,
        (containerStateToDtoRun w state).1 = (containerStateToDtoRun w2 state).1 ∧
        (containerStateToDtoRun w state).2 = w ∧
        (containerStateToDtoRun w state).1 = containerStateToDto state) ∧
      (∀ type : String,
        (nodeTypeUiToGrpcRun w type).1 = (nodeTypeUiToGrpcRun w2 type).1 ∧
        (nodeTypeUiToGrpcRun w type).2 = w ∧
        (nodeTypeUiToGrpcRun w type).1 = nodeTypeUiToGrpc type) ∧
      (∀ type : Int,
        (nodeTypeGrpcToUiRun w type).1 = (nodeTypeGrpcToUiRun w2 type).1 ∧
        (nodeTypeGrpcToUiRun w type).2 = w ∧
        (nodeTypeGrpcToUiRun w type).1 = nodeTypeGrpcToUi type) ∧
      (∀ status : Int,
        (nodeStatusToDtoRun w status).1 = (nodeStatusToDtoRun w2 status).1 ∧
        (nodeStatusToDtoRun w status).2 = w ∧
        (nodeStatusToDtoRun w status).1 = nodeStatusToDto status) ∧
      (∀ it : String,
        (containerOperationToProtoRun w it).1 = (containerOperationToProtoRun w2 it).1 ∧
        (containerOperationToProtoRun w it).2 = w ∧
        (containerOperationToProtoRun w it).1 = containerOperationToProto it) :=
  fun _ _ _ =>
    ⟨fun _ => ⟨rfl, rfl, rfl⟩, fun _ => ⟨rfl, rfl, rfl⟩, fun _ => ⟨rfl, rfl, rfl⟩,
     fun _ => ⟨rfl, rfl, rfl⟩, fun _ => ⟨rfl, rfl, rfl⟩⟩

end MapperTheorems

section ControllerTheorems

open DeployHttpController

/-- C8: copyDeployment is independent of the force query parameter: for
every service, deployment id and identity, two calls differing only in
force produce the same response (and hence the same service call, since
the service is only ever applied to the deployment id and the identity). -/
theorem copyDeployment_force_independent :
    ∀ (service : String → Identity → DeploymentDto) (f1 f2 : Bool)
      (deploymentId : String) (identity : Identity),
      copyDeployment service f1 deploymentId identity =
        copyDeployment service f2 deploymentId identity :=
  fun _ _ _ _ _ => rfl

/-- C9: both createDeployment and copyDeployment return a location URL that
is the string /deployments/ followed by the id of the deployment body they
return, for every service result. -/
theorem location_points_at_returned_resource :
    ∀ (createService : CreateDeploymentDto → Identity → DeploymentDto)
      (copyService : String → Identity → DeploymentDto)
      (request : CreateDeploymentDto) (force : Bool)
      (deploymentId : String) (identity : Identity),
      (createDeployment createService request identity).url =
        "/deployments/" ++ (createDeployment createService request identity).body.id ∧
      (copyDeployment copyService force deploymentId identity).url =
        "/deployments/" ++ (copyDeployment copyService force deploymentId identity).body.id :=
  fun _ _ _ _ _ _ => ⟨rfl, rfl⟩

end ControllerTheorems

section CheckboxTheorems

open DyoCheckbox

/-- C10: on any click or change event the checkbox handler reports the
JavaScript negation of the checked prop, calling setFieldValue (when
provided) with the name, the negated value and validate false, then
onCheckedChange (when provided) with the negated value and the event;
absent callbacks are skipped, and an undefined checked prop is reported as
true. -/
theorem checkbox_reports_negation :
    ∀ (props : DyoCheckboxProps) (event : UIEvent),
      onClickCheckbox props event =
        (if props.setFieldValue then
          [CheckboxEffect.setField props.name (!(props.checked.getD false)) false]
         else [])
        ++ (if props.onCheckedChange then
          [CheckboxEffect.checkedChange (!(props.checked.getD false)) event]
         else []) ∧
      onChangeCheckbox props event = onClickCheckbox props event ∧
      (props.checked = none → jsNot props.checked = true) := by
  intro props event
  refine ⟨rfl, rfl, ?_⟩
  intro h
  rw [jsNot, h]
  rfl

/-- Witness for C10: with an undefined checked prop the handler reports the
value true. -/
theorem checkbox_reports_negation_witness :
    jsNot (none : Option Bool) = true :=
  (checkbox_reports_negation ⟨none, none, true, true⟩ ⟨0⟩).2.2 rfl

end CheckboxTheorems
